import Mathlib

/-!
Verification of the energy derivation / aggregation core of the solar-pro
dashboard (src/src/App.jsx and the near-duplicate variants in src/unnamed/).

Modelling conventions:
* JS numbers over the exact rationals: the raw numeric fields of a stored
  reading may be absent (SQL NULL / undefined), modelled as `Option ℚ` with
  `none` for an absent value.  The source coerces a raw field with
  `Number(x || 0)`, which sends an absent value (and 0 itself) to 0 and any
  other numeric value to itself; this is `numOr0` below.  Where a variant
  adds a raw field directly (`acc + curr.produced`), JS numeric addition
  treats `null` as 0 as well, so the same `numOr0` models it.
* The date of a row may likewise be absent, modelled as `Option String`.
  JS member access `d.date.startsWith(sel)` on an absent date throws a
  TypeError; filters that perform it are therefore embedded in
  `Except String`, with `Except.error` for the thrown exception, while the
  strict-equality day comparison `d.date === sel` never throws.
* The source wraps each aggregate in `toFixed(1)` / `toFixed(2)` for
  display; the spec (section 4.3) scopes decimal formatting out as a
  presentation concern, so the aggregates are modelled as the underlying
  exact numeric values.
-/

namespace SolarPro

/-- A raw persisted reading, one row of the daily_readings table.  Numeric
fields and the date may be absent (`none` models SQL NULL / undefined). -/
structure Reading where
  id : Nat
  date : Option String
  produced : Option ℚ
  exported : Option ℚ
  imported : Option ℚ
  deriving Repr, DecidableEq

/-- A derived reading: the object spread keeps every raw field as-is and
adds the computed fields, as in `processedData` of src/src/App.jsx
lines 71-84. -/
structure DerivedReading where
  id : Nat
  date : Option String
  produced : Option ℚ
  exported : Option ℚ
  imported : Option ℚ
  consumed : ℚ
  selfUsed : ℚ
  efficiency : ℚ
  deriving Repr, DecidableEq

/-- JS coercion `Number(x || 0)`: an absent value degrades to 0, a present
numeric value is kept (0 itself maps to 0 on either path). -/
def numOr0 (x : Option ℚ) : ℚ := x.getD 0

/-- Per-reading derivation, the body of the map in `processedData`
(src/src/App.jsx lines 72-82, src/unnamed/part_000 lines 71-82): coerce the
three raw fields, spread the original row, and add `consumed`, `selfUsed`
and `efficiency` with the guarded division. -/
def derive (d : Reading) : DerivedReading :=
  let prod := numOr0 d.produced
  let exp := numOr0 d.exported
  let imp := numOr0 d.imported
  let self := prod - exp
  { id := d.id
    date := d.date
    produced := d.produced
    exported := d.exported
    imported := d.imported
    consumed := self + imp
    selfUsed := self
    efficiency := if prod > 0 then (self / prod) * 100 else 0 }

/-- `processedData` (src/src/App.jsx line 72): map the derivation over the
fetched collection. -/
def processedData (solarData : List Reading) : List DerivedReading :=
  solarData.map derive

/-- View modes of the dashboard; the three-mode variant (part_000) is the
canonical one per the spec, App.jsx restricts it to month / year. -/
inductive ViewMode where
  | day
  | month
  | year
  deriving Repr, DecidableEq

/-- JS `xs.filter(d => d.date.startsWith(sel))`: member access on an absent
date throws, so the whole filter call is `Except`; a present date is kept
iff it starts with the selector. -/
def filterStarts (sel : String) : List DerivedReading → Except String (List DerivedReading)
  | [] => Except.ok []
  | d :: ds =>
    match d.date with
    | none => Except.error "TypeError: cannot read startsWith of undefined"
    | some s =>
      (filterStarts sel ds).map (fun rest => if s.startsWith sel then d :: rest else rest)

/-- `currentPeriodData` of the unguarded variants (src/unnamed/part_000
lines 86-90; App.jsx lines 86-89 is its month / year restriction): strict
equality for day, unguarded `startsWith` for month and year. -/
def currentPeriodData (processed : List DerivedReading) (viewMode : ViewMode)
    (selectedDate selectedMonth selectedYear : String) :
    Except String (List DerivedReading) :=
  match viewMode with
  | ViewMode.day => Except.ok (processed.filter (fun d => d.date == some selectedDate))
  | ViewMode.month => filterStarts selectedMonth processed
  | ViewMode.year => filterStarts selectedYear processed

/-- `currentPeriodData` of src/unnamed/part_005 lines 78-82 (and part_003):
identical except that the year branch guards the access with
`d.date && d.date.startsWith(selectedYear)`, excluding absent dates
instead of throwing. -/
def currentPeriodDataGuardedYear (processed : List DerivedReading) (viewMode : ViewMode)
    (selectedDate selectedMonth selectedYear : String) :
    Except String (List DerivedReading) :=
  match viewMode with
  | ViewMode.day => Except.ok (processed.filter (fun d => d.date == some selectedDate))
  | ViewMode.month => filterStarts selectedMonth processed
  | ViewMode.year =>
      Except.ok (processed.filter
        (fun d => (Option.map (fun s => s.startsWith selectedYear) d.date).getD false))

/-- Aggregated statistics of a period, `stats` of src/src/App.jsx
lines 105-125; numeric values, with the `toFixed` display formatting
scoped out per spec section 4.3. -/
structure PeriodStats where
  totalProduced : ℚ
  totalConsumed : ℚ
  avgProduced : ℚ
  avgConsumed : ℚ
  exported : ℚ
  imported : ℚ
  selfUsed : ℚ
  selfRate : ℚ
  gridRate : ℚ
  deriving Repr, DecidableEq

/-- `stats` of src/src/App.jsx lines 105-125 (variant strategy A): null for
an empty period; otherwise folds of the fields, with the period self-use
computed as `prod - exp` (line 112) and the rates guarded by a strict
`> 0` test. -/
def stats (periodData : List DerivedReading) : Option PeriodStats :=
  if periodData.length = 0 then none
  else
    let count : ℚ := periodData.length
    let prod := periodData.foldl (fun acc curr => acc + numOr0 curr.produced) 0
    let exp := periodData.foldl (fun acc curr => acc + numOr0 curr.exported) 0
    let imp := periodData.foldl (fun acc curr => acc + numOr0 curr.imported) 0
    let cons := periodData.foldl (fun acc curr => acc + curr.consumed) 0
    let self := prod - exp
    some
      { totalProduced := prod
        totalConsumed := cons
        avgProduced := prod / count
        avgConsumed := cons / count
        exported := exp
        imported := imp
        selfUsed := self
        selfRate := if prod > 0 then (self / prod) * 100 else 0
        gridRate := if cons > 0 then (imp / cons) * 100 else 0 }

/-- `stats` of src/unnamed/part_004 lines 104-122 (and the second variant in
src/src/App.jsx, lines 514-534; variant strategy B): identical except the
period self-use is the sum of the per-reading `selfUsed` fields. -/
def statsSumSelf (periodData : List DerivedReading) : Option PeriodStats :=
  if periodData.length = 0 then none
  else
    let count : ℚ := periodData.length
    let prod := periodData.foldl (fun acc curr => acc + numOr0 curr.produced) 0
    let exp := periodData.foldl (fun acc curr => acc + numOr0 curr.exported) 0
    let imp := periodData.foldl (fun acc curr => acc + numOr0 curr.imported) 0
    let cons := periodData.foldl (fun acc curr => acc + curr.consumed) 0
    let self := periodData.foldl (fun acc curr => acc + curr.selfUsed) 0
    some
      { totalProduced := prod
        totalConsumed := cons
        avgProduced := prod / count
        avgConsumed := cons / count
        exported := exp
        imported := imp
        selfUsed := self
        selfRate := if prod > 0 then (self / prod) * 100 else 0
        gridRate := if cons > 0 then (imp / cons) * 100 else 0 }

/-- One bucket of the yearly bar chart. -/
structure MonthlyBucket where
  name : String
  produced : ℚ
  consumed : ℚ
  deriving Repr, DecidableEq

/-- Month labels of the yearly chart (src/src/App.jsx line 93). -/
def monthNames : List String :=
  ["Jan", "Feb", "Mar", "Apr", "May", "Jun", "Jul", "Aug", "Sep", "Oct", "Nov", "Dec"]

/-- JS `String(index + 1).padStart(2, c0)` for the 1-based month number. -/
def pad2 (n : Nat) : String := if n < 10 then "0" ++ toString n else toString n

/-- Body of the month map in `yearlyGraphData` (src/src/App.jsx
lines 94-101): build the month selector, filter by it (which can throw on
an absent date), and fold the raw `produced` and derived `consumed` sums. -/
def monthBucket (processed : List DerivedReading) (selectedYear : String) (index : Nat) :
    Except String MonthlyBucket :=
  let sel := selectedYear ++ "-" ++ pad2 (index + 1)
  (filterStarts sel processed).map (fun entries =>
    { name := monthNames.getD index ""
      produced := entries.foldl (fun acc curr => acc + numOr0 curr.produced) 0
      consumed := entries.foldl (fun acc curr => acc + curr.consumed) 0 })

/-- Sequencing of the 12 bucket computations of `months.map` in
`yearlyGraphData`; the first thrown TypeError aborts the whole map. -/
def bucketsFor (processed : List DerivedReading) (selectedYear : String) :
    List Nat → Except String (List MonthlyBucket)
  | [] => Except.ok []
  | i :: is =>
    match monthBucket processed selectedYear i with
    | Except.error e => Except.error e
    | Except.ok b =>
      match bucketsFor processed selectedYear is with
      | Except.error e => Except.error e
      | Except.ok bs => Except.ok (b :: bs)

/-- `yearlyGraphData` (src/src/App.jsx lines 91-103): empty outside year
mode, otherwise one bucket per calendar month index 0..11. -/
def yearlyGraphData (processed : List DerivedReading) (viewMode : ViewMode)
    (selectedYear : String) : Except String (List MonthlyBucket) :=
  if viewMode = ViewMode.year then bucketsFor processed selectedYear (List.range 12)
  else Except.ok []

/-! Helper lemmas shared by several claims. -/

theorem foldl_add_eq_sum {α : Type} (f : α → ℚ) (xs : List α) (a : ℚ) :
    xs.foldl (fun acc c => acc + f c) a = a + (xs.map f).sum := by
  induction xs generalizing a with
  | nil => simp
  | cons x xs ih =>
    simp only [List.foldl_cons, List.map_cons, List.sum_cons, ih]
    ring

theorem filterStarts_ok (sel : String) (xs : List DerivedReading)
    (h : xs.all (fun d => d.date.isSome) = true) :
    filterStarts sel xs =
      Except.ok (xs.filter (fun d => (d.date.getD "").startsWith sel)) := by
  induction xs with
  | nil => rfl
  | cons d ds ih =>
    simp only [List.all_cons, Bool.and_eq_true] at h
    obtain ⟨s, hs⟩ := Option.isSome_iff_exists.mp h.1
    simp only [filterStarts, hs, ih h.2, Except.map, List.filter_cons, Option.getD_some]

/-- C1: for every reading, derivation yields selfUsed = produced - exported
and consumed = (produced - exported) + imported, over the coerced raw
fields (absent values degrade to 0 via `numOr0`); `derive` is a total
function of the reading, so the derivation never throws. -/
theorem derive_consumed_selfUsed (r : Reading) :
    (derive r).selfUsed = numOr0 r.produced - numOr0 r.exported ∧
    (derive r).consumed = (numOr0 r.produced - numOr0 r.exported) + numOr0 r.imported := by
  exact ⟨rfl, rfl⟩

/-- C9: the derivation preserves every original field of the reading
unchanged (id, date, and the raw, uncoerced produced / exported / imported
values), only adding the computed fields, and `processedData` is the plain
map of `derive` over the input list, which is left untouched (the embedding
is a pure function of its argument). -/
theorem derive_preserves_raw_fields (r : Reading) (solarData : List Reading) :
    (derive r).id = r.id ∧
    (derive r).date = r.date ∧
    (derive r).produced = r.produced ∧
    (derive r).exported = r.exported ∧
    (derive r).imported = r.imported ∧
    processedData solarData = solarData.map derive := by
  exact ⟨rfl, rfl, rfl, rfl, rfl, rfl⟩

/-- C2: aggregation returns the explicit absent state (none) exactly on the
empty period list, in both aggregation variants; a stats object is produced
iff the filtered list has at least one reading. -/
theorem stats_none_iff_empty (periodData : List DerivedReading) :
    (stats periodData = none ↔ periodData = []) ∧
    (statsSumSelf periodData = none ↔ periodData = []) := by
  constructor <;>
    · cases periodData <;> simp [stats, statsSumSelf]

theorem stats_eq (xs : List DerivedReading) (hne : xs ≠ []) :
    stats xs = some
      { totalProduced := (xs.map (fun c => numOr0 c.produced)).sum
        totalConsumed := (xs.map (fun c => c.consumed)).sum
        avgProduced := (xs.map (fun c => numOr0 c.produced)).sum / (xs.length : ℚ)
        avgConsumed := (xs.map (fun c => c.consumed)).sum / (xs.length : ℚ)
        exported := (xs.map (fun c => numOr0 c.exported)).sum
        imported := (xs.map (fun c => numOr0 c.imported)).sum
        selfUsed := (xs.map (fun c => numOr0 c.produced)).sum -
          (xs.map (fun c => numOr0 c.exported)).sum
        selfRate := if (xs.map (fun c => numOr0 c.produced)).sum > 0 then
            (((xs.map (fun c => numOr0 c.produced)).sum -
              (xs.map (fun c => numOr0 c.exported)).sum) /
              (xs.map (fun c => numOr0 c.produced)).sum) * 100
          else 0
        gridRate := if (xs.map (fun c => c.consumed)).sum > 0 then
            ((xs.map (fun c => numOr0 c.imported)).sum /
              (xs.map (fun c => c.consumed)).sum) * 100
          else 0 } := by
  have hl : ¬ xs.length = 0 := by simpa [List.length_eq_zero] using hne
  simp only [stats, hl, if_false, foldl_add_eq_sum, zero_add]

theorem statsSumSelf_eq (xs : List DerivedReading) (hne : xs ≠ []) :
    statsSumSelf xs = some
      { totalProduced := (xs.map (fun c => numOr0 c.produced)).sum
        totalConsumed := (xs.map (fun c => c.consumed)).sum
        avgProduced := (xs.map (fun c => numOr0 c.produced)).sum / (xs.length : ℚ)
        avgConsumed := (xs.map (fun c => c.consumed)).sum / (xs.length : ℚ)
        exported := (xs.map (fun c => numOr0 c.exported)).sum
        imported := (xs.map (fun c => numOr0 c.imported)).sum
        selfUsed := (xs.map (fun c => c.selfUsed)).sum
        selfRate := if (xs.map (fun c => numOr0 c.produced)).sum > 0 then
            ((xs.map (fun c => c.selfUsed)).sum /
              (xs.map (fun c => numOr0 c.produced)).sum) * 100
          else 0
        gridRate := if (xs.map (fun c => c.consumed)).sum > 0 then
            ((xs.map (fun c => numOr0 c.imported)).sum /
              (xs.map (fun c => c.consumed)).sum) * 100
          else 0 } := by
  have hl : ¬ xs.length = 0 := by simpa [List.length_eq_zero] using hne
  simp only [statsSumSelf, hl, if_false, foldl_add_eq_sum, zero_add]

theorem stats_ne_none_of_mem (xs : List DerivedReading) (s : PeriodStats)
    (h : stats xs = some s) : xs ≠ [] := by
  intro he
  subst he
  simp [stats] at h

/-- C3: every division in the pipeline is guarded: a reading whose coerced
produced is 0 derives efficiency 0 (no division is attempted), and in any
non-empty period aggregate a zero totalProduced yields selfRate 0 and a
zero totalConsumed yields gridRate 0; all functions are total over ℚ, so
no NaN or error can arise. -/
theorem guarded_divisions (r : Reading) (xs : List DerivedReading) (s : PeriodStats)
    (h : stats xs = some s) :
    (numOr0 r.produced = 0 → (derive r).efficiency = 0) ∧
    (s.totalProduced = 0 → s.selfRate = 0) ∧
    (s.totalConsumed = 0 → s.gridRate = 0) := by
  have hne := stats_ne_none_of_mem xs s h
  rw [stats_eq xs hne] at h
  have hs := Option.some.inj h
  subst hs
  refine ⟨fun hp => ?_, fun h0 => ?_, fun h0 => ?_⟩
  · simp [derive, hp]
  · simp only at h0 ⊢
    rw [h0]
    simp
  · simp only at h0 ⊢
    rw [h0]
    simp

/-- C4: for a non-empty period, totalProduced is the plain sum of the
readings' (coerced) produced values, avgProduced is that sum divided by the
reading count, and likewise for totalConsumed / avgConsumed; the count is
non-zero because the empty case returns the absent state. -/
theorem stats_totals_averages (xs : List DerivedReading) (s : PeriodStats)
    (h : stats xs = some s) :
    s.totalProduced = (xs.map (fun c => numOr0 c.produced)).sum ∧
    s.avgProduced = s.totalProduced / (xs.length : ℚ) ∧
    s.totalConsumed = (xs.map (fun c => c.consumed)).sum ∧
    s.avgConsumed = s.totalConsumed / (xs.length : ℚ) ∧
    xs.length ≠ 0 := by
  have hne := stats_ne_none_of_mem xs s h
  rw [stats_eq xs hne] at h
  have hs := Option.some.inj h
  subst hs
  refine ⟨rfl, rfl, rfl, rfl, ?_⟩
  simpa [List.length_eq_zero] using hne

/-- C10: the rate guards test strictly greater than zero, so every
non-positive denominator (in particular the negative totalConsumed reached
when exported exceeds produced) is mapped to rate 0, not only the
exactly-zero case. -/
theorem negative_denominators_rate_zero (xs : List DerivedReading) (s : PeriodStats)
    (h : stats xs = some s) :
    (s.totalConsumed < 0 → s.gridRate = 0) ∧
    (s.totalProduced < 0 → s.selfRate = 0) := by
  have hne := stats_ne_none_of_mem xs s h
  rw [stats_eq xs hne] at h
  have hs := Option.some.inj h
  subst hs
  constructor
  · intro hn
    simp only
    rw [if_neg (not_lt.mpr hn.le)]
  · intro hn
    simp only
    rw [if_neg (not_lt.mpr hn.le)]

theorem selfUsed_sum (raw : List Reading) :
    ((processedData raw).map (fun c => c.selfUsed)).sum =
      ((processedData raw).map (fun c => numOr0 c.produced)).sum -
      ((processedData raw).map (fun c => numOr0 c.exported)).sum := by
  induction raw with
  | nil => simp [processedData]
  | cons r rs ih =>
    simp only [processedData, List.map_cons, List.sum_cons] at ih ⊢
    rw [ih]
    simp only [derive]
    ring

/-- C8: on derived data the two aggregation strategies coincide: computing
the period self-use as totalProduced minus totalExported (strategy of
src/src/App.jsx line 112) equals summing each derived reading's selfUsed
field (strategy of src/unnamed/part_004 lines 106-110), so the two stats
variants agree on every field under exact rational arithmetic. -/
theorem stats_strategies_agree (raw : List Reading) :
    statsSumSelf (processedData raw) = stats (processedData raw) := by
  rcases eq_or_ne (processedData raw) [] with he | hne
  · rw [he]
    rfl
  · rw [stats_eq _ hne, statsSumSelf_eq _ hne, selfUsed_sum raw]

/-- C5: on a list whose readings all carry a date, Day mode keeps exactly
the readings whose date equals the selector, Month and Year modes keep
exactly those whose date starts with the selector, and each result is a
sublist of the input, preserving relative order. -/
theorem period_filter_characterization (xs : List DerivedReading) (sd sm sy : String)
    (h : xs.all (fun d => d.date.isSome) = true) :
    currentPeriodData xs ViewMode.day sd sm sy =
      Except.ok (xs.filter (fun d => d.date == some sd)) ∧
    currentPeriodData xs ViewMode.month sd sm sy =
      Except.ok (xs.filter (fun d => (d.date.getD "").startsWith sm)) ∧
    currentPeriodData xs ViewMode.year sd sm sy =
      Except.ok (xs.filter (fun d => (d.date.getD "").startsWith sy)) ∧
    (xs.filter (fun d => d.date == some sd)).Sublist xs ∧
    (xs.filter (fun d => (d.date.getD "").startsWith sm)).Sublist xs ∧
    (xs.filter (fun d => (d.date.getD "").startsWith sy)).Sublist xs := by
  exact ⟨rfl, filterStarts_ok sm xs h, filterStarts_ok sy xs h,
    List.filter_sublist xs, List.filter_sublist xs, List.filter_sublist xs⟩

/-- Concrete reading with an absent date (SQL NULL), used to exhibit the
filter failure. -/
def rNoDate : Reading :=
  { id := 9, date := none, produced := some 5, exported := some 2, imported := some 1 }

/-- C6 fails as stated: in Month mode a reading with an absent date makes
the whole filter call throw a TypeError instead of being excluded. -/
theorem month_filter_throws_on_missing_date :
    currentPeriodData (processedData [rNoDate]) ViewMode.month "2025-01-01" "2025-01" "2025" =
      Except.error "TypeError: cannot read startsWith of undefined" := rfl

/-- C6 amended: tolerance of an absent date holds only where the filter
avoids the member access — Day mode (strict equality) and the guarded Year
branch of part_003 / part_005 exclude date-less readings without failing
(every kept reading has a present date); Month mode, and the unguarded Year
branch, throw on an absent date.  A present-but-malformed date string never
throws in any mode; it is merely excluded when it fails the comparison. -/
theorem missing_date_tolerated_only_when_guarded (xs : List DerivedReading)
    (sd sm sy : String) :
    currentPeriodData xs ViewMode.day sd sm sy =
      Except.ok (xs.filter (fun d => d.date == some sd)) ∧
    (xs.filter (fun d => d.date == some sd)).all (fun d => d.date.isSome) = true ∧
    currentPeriodDataGuardedYear xs ViewMode.year sd sm sy =
      Except.ok (xs.filter
        (fun d => (Option.map (fun s => s.startsWith sy) d.date).getD false)) ∧
    (xs.filter (fun d => (Option.map (fun s => s.startsWith sy) d.date).getD false)).all
      (fun d => d.date.isSome) = true := by
  refine ⟨rfl, ?_, rfl, ?_⟩
  · simp only [List.all_eq_true]
    intro d hd
    have hp := (List.mem_filter.mp hd).2
    cases hdate : d.date with
    | none => rw [hdate] at hp; simp at hp
    | some s => simp [hdate]
  · simp only [List.all_eq_true]
    intro d hd
    have hp := (List.mem_filter.mp hd).2
    cases hdate : d.date with
    | none => rw [hdate] at hp; simp at hp
    | some s => simp [hdate]

theorem bucketsFor_ok (processed : List DerivedReading) (selectedYear : String)
    (h : processed.all (fun d => d.date.isSome) = true) (is : List Nat) :
    bucketsFor processed selectedYear is =
      Except.ok (is.map (fun i =>
        ({ name := monthNames.getD i ""
           produced := ((processed.filter (fun d =>
               (d.date.getD "").startsWith (selectedYear ++ "-" ++ pad2 (i + 1)))).map
                 (fun c => numOr0 c.produced)).sum
           consumed := ((processed.filter (fun d =>
               (d.date.getD "").startsWith (selectedYear ++ "-" ++ pad2 (i + 1)))).map
                 (fun c => c.consumed)).sum } : MonthlyBucket))) := by
  induction is with
  | nil => rfl
  | cons i is ih =>
    simp only [bucketsFor, monthBucket, filterStarts_ok _ _ h, Except.map, ih,
      List.map_cons, foldl_add_eq_sum, zero_add]

/-- C7: on a list whose readings all carry a date, the year rollup returns
exactly 12 buckets in January-December order; the bucket of 1-based month
m collects exactly the readings whose date starts with the zero-padded
prefix year-mm, summing their (coerced) produced and derived consumed
values (an empty month therefore sums to 0 rather than being absent). -/
theorem year_rollup_buckets (processed : List DerivedReading) (selectedYear : String)
    (h : processed.all (fun d => d.date.isSome) = true) :
    yearlyGraphData processed ViewMode.year selectedYear =
      Except.ok ((List.range 12).map (fun i =>
        ({ name := monthNames.getD i ""
           produced := ((processed.filter (fun d =>
               (d.date.getD "").startsWith (selectedYear ++ "-" ++ pad2 (i + 1)))).map
                 (fun c => numOr0 c.produced)).sum
           consumed := ((processed.filter (fun d =>
               (d.date.getD "").startsWith (selectedYear ++ "-" ++ pad2 (i + 1)))).map
                 (fun c => c.consumed)).sum } : MonthlyBucket))) ∧
    ((List.range 12).map (fun i =>
        ({ name := monthNames.getD i ""
           produced := ((processed.filter (fun d =>
               (d.date.getD "").startsWith (selectedYear ++ "-" ++ pad2 (i + 1)))).map
                 (fun c => numOr0 c.produced)).sum
           consumed := ((processed.filter (fun d =>
               (d.date.getD "").startsWith (selectedYear ++ "-" ++ pad2 (i + 1)))).map
                 (fun c => c.consumed)).sum } : MonthlyBucket))).length = 12 ∧
    ((List.range 12).map (fun i =>
        ({ name := monthNames.getD i ""
           produced := ((processed.filter (fun d =>
               (d.date.getD "").startsWith (selectedYear ++ "-" ++ pad2 (i + 1)))).map
                 (fun c => numOr0 c.produced)).sum
           consumed := ((processed.filter (fun d =>
               (d.date.getD "").startsWith (selectedYear ++ "-" ++ pad2 (i + 1)))).map
                 (fun c => c.consumed)).sum } : MonthlyBucket))).map
      (fun b => b.name) = monthNames := by
  refine ⟨?_, by simp, ?_⟩
  · unfold yearlyGraphData
    rw [if_pos rfl]
    exact bucketsFor_ok processed selectedYear h (List.range 12)
  · simp only [List.map_map]
    rfl

/-! Concrete inputs for the witnesses. -/

/-- Reading whose production is zero. -/
def rZero : Reading :=
  { id := 1, date := some "2025-01-01", produced := some 0, exported := some 0,
    imported := some 0 }

/-- Expected aggregate of the single all-zero reading. -/
def sZero : PeriodStats :=
  { totalProduced := 0, totalConsumed := 0, avgProduced := 0, avgConsumed := 0,
    exported := 0, imported := 0, selfUsed := 0, selfRate := 0, gridRate := 0 }

/-- First reading of the spec's worked January example. -/
def rJan1 : Reading :=
  { id := 1, date := some "2025-01-01", produced := some 10, exported := some 4,
    imported := some 2 }

/-- Second reading of the spec's worked January example. -/
def rJan2 : Reading :=
  { id := 2, date := some "2025-01-02", produced := some 8, exported := some 2,
    imported := some 3 }

/-- Expected aggregate of the January example: totals 18 / 17, averages 9
and 17/2, rates 200/3 and 500/17 percent. -/
def sJan : PeriodStats :=
  { totalProduced := 18, totalConsumed := 17, avgProduced := 9, avgConsumed := 17 / 2,
    exported := 6, imported := 5, selfUsed := 12, selfRate := 200 / 3,
    gridRate := 500 / 17 }

/-- Invalid-but-tolerated reading with exported greater than produced. -/
def rBad : Reading :=
  { id := 3, date := some "2025-01-05", produced := some 5, exported := some 7,
    imported := some 0 }

/-- Expected aggregate of the invalid reading: negative consumed total,
whose grid rate falls back to 0 under the strict guard. -/
def sBad : PeriodStats :=
  { totalProduced := 5, totalConsumed := -2, avgProduced := 5, avgConsumed := -2,
    exported := 7, imported := 0, selfUsed := -2, selfRate := -40, gridRate := 0 }

/-- In-period reading of the month filter example. -/
def rMar : Reading :=
  { id := 1, date := some "2025-03-15", produced := some 1, exported := some 0,
    imported := some 0 }

/-- Out-of-period reading of the month filter example. -/
def rApr : Reading :=
  { id := 2, date := some "2025-04-01", produced := some 2, exported := some 0,
    imported := some 0 }

/-- Reading with a present but malformed date string. -/
def rMal : Reading :=
  { id := 3, date := some "2025-13-01", produced := some 3, exported := some 0,
    imported := some 0 }

/-- Witness for C3 at the all-zero reading: the aggregate exists, and all
three guarded divisions return 0. -/
theorem guarded_divisions_witness :
    stats (processedData [rZero]) = some sZero ∧
    ((numOr0 rZero.produced = 0 → (derive rZero).efficiency = 0) ∧
     (sZero.totalProduced = 0 → sZero.selfRate = 0) ∧
     (sZero.totalConsumed = 0 → sZero.gridRate = 0)) := by
  have hstats : stats (processedData [rZero]) = some sZero := by
    norm_num [stats, processedData, derive, numOr0, rZero, sZero,
      Option.some.injEq, PeriodStats.mk.injEq]
  exact ⟨hstats, guarded_divisions rZero (processedData [rZero]) sZero hstats⟩

/-- Witness for C4 at the spec's January example. -/
theorem stats_totals_averages_witness :
    stats (processedData [rJan1, rJan2]) = some sJan ∧
    (sJan.totalProduced =
        ((processedData [rJan1, rJan2]).map (fun c => numOr0 c.produced)).sum ∧
     sJan.avgProduced = sJan.totalProduced / ((processedData [rJan1, rJan2]).length : ℚ) ∧
     sJan.totalConsumed = ((processedData [rJan1, rJan2]).map (fun c => c.consumed)).sum ∧
     sJan.avgConsumed = sJan.totalConsumed / ((processedData [rJan1, rJan2]).length : ℚ) ∧
     (processedData [rJan1, rJan2]).length ≠ 0) := by
  have hstats : stats (processedData [rJan1, rJan2]) = some sJan := by
    norm_num [stats, processedData, derive, numOr0, rJan1, rJan2, sJan,
      Option.some.injEq, PeriodStats.mk.injEq]
  exact ⟨hstats, stats_totals_averages (processedData [rJan1, rJan2]) sJan hstats⟩

/-- Witness for C10 at the invalid reading: the negative consumed total is
reached and its grid-reliance rate is 0. -/
theorem negative_denominators_rate_zero_witness :
    stats (processedData [rBad]) = some sBad ∧
    sBad.totalConsumed < 0 ∧ sBad.gridRate = 0 := by
  have hstats : stats (processedData [rBad]) = some sBad := by
    norm_num [stats, processedData, derive, numOr0, rBad, sBad,
      Option.some.injEq, PeriodStats.mk.injEq]
  have hneg : sBad.totalConsumed < 0 := by norm_num [sBad]
  exact ⟨hstats, hneg,
    (negative_denominators_rate_zero (processedData [rBad]) sBad hstats).1 hneg⟩

/-- Witness for C5 at the spec's month filter example: all dates present,
and the Month filter equals the prefix filter (which keeps 2025-03-15 and
excludes 2025-04-01 and the malformed 2025-13-01). -/
theorem period_filter_characterization_witness :
    (processedData [rMar, rApr, rMal]).all (fun d => d.date.isSome) = true ∧
    currentPeriodData (processedData [rMar, rApr, rMal]) ViewMode.month
        "2025-03-15" "2025-03" "2025" =
      Except.ok ((processedData [rMar, rApr, rMal]).filter
        (fun d => (d.date.getD "").startsWith "2025-03")) := by
  have h : (processedData [rMar, rApr, rMal]).all (fun d => d.date.isSome) = true := by
    simp [processedData, derive, rMar, rApr, rMal]
  exact ⟨h, (period_filter_characterization (processedData [rMar, rApr, rMal])
    "2025-03-15" "2025-03" "2025" h).2.1⟩

/-- Witness for C7 at a one-reading list: all dates present and the rollup
equation of the year 2025 holds. -/
theorem year_rollup_buckets_witness :
    (processedData [rMar]).all (fun d => d.date.isSome) = true ∧
    yearlyGraphData (processedData [rMar]) ViewMode.year "2025" =
      Except.ok ((List.range 12).map (fun i =>
        ({ name := monthNames.getD i ""
           produced := (((processedData [rMar]).filter (fun d =>
               (d.date.getD "").startsWith ("2025" ++ "-" ++ pad2 (i + 1)))).map
                 (fun c => numOr0 c.produced)).sum
           consumed := (((processedData [rMar]).filter (fun d =>
               (d.date.getD "").startsWith ("2025" ++ "-" ++ pad2 (i + 1)))).map
                 (fun c => c.consumed)).sum } : MonthlyBucket))) := by
  have h : (processedData [rMar]).all (fun d => d.date.isSome) = true := by
    simp [processedData, derive, rMar]
  exact ⟨h, (year_rollup_buckets (processedData [rMar]) "2025" h).1⟩

end SolarPro
